import Mathlib

/-
Verification development for the speedupdate repository (CLI front end,
core library progress/codec pieces, and the gRPC server).

The Rust sources under scrutiny are shallowly embedded below:
  - a model of the clap-4 argument machinery exactly as src/cli/src/main.rs
    configures it (argument ids, long names, actions), with the access
    semantics of ArgMatches::get_flag / get_one (an access whose id is not
    defined with a matching action aborts the process by a panic, in debug
    and release builds alike);
  - the command handlers of src/cli/src/repository.rs and
    src/cli/src/workspace.rs as functions from their inputs (parsed
    matches, repository answers, update/build streams) to an outcome:
    a normal return (exit code 0) with the printed lines, an explicit
    std::process::exit after a logged error, or a process abort by panic;
  - the finish path of the brotli decoder wrapper
    (src/lib/src/codecs/brotli.rs) over a decoder state modelled from the
    specification (the decoder itself lives in the external brotli crate);
  - the build progress data of src/lib/src/repository/progress.rs with a
    publisher modelled from the specification (the builder is not among
    the staged sources);
  - the register_package / unregister_package / is_init handlers of
    src/server/src/rpc.rs, parameterized by the repository capability.

Machine integers (u64, usize) are modelled as Nat: no arithmetic here
comes near an overflow, and no claim depends on wrapping.
-/

namespace Speedupdate

/-! ## Clap-4 argument model (src/cli/src/main.rs)

clap stores each argument under the exact id string given to Arg::new.
An argument without .long or .short is positional; a token starting with
two dashes on the command line is matched only against declared long
names.  ArgMatches::get_flag(id) panics unless id is declared with
ArgAction::SetTrue (undeclared id: the debug build rejects the access,
the release build finds no value and the expect on None fires; declared
with the default Set action: a String value fails the bool downcast when
present, and the expect on None fires when absent).
ArgMatches::get_one::<String>(id) on a declared Set argument returns the
present value.  get_one::<&str> on a declared argument whose values are
stored as String panics on the downcast when a value is present. -/

inductive ArgAction where
  | set
  | setTrue
deriving DecidableEq

structure ArgSpec where
  id : String
  long : Option String
  action : ArgAction
deriving DecidableEq

structure ArgMatches where
  specs : List ArgSpec
  values : List (String × String)
  flags : List String
deriving DecidableEq

def findArg (specs : List ArgSpec) (i : String) : Option ArgSpec :=
  specs.find? (fun a => a.id == i)

def argValue (m : ArgMatches) (i : String) : Option String :=
  (m.values.find? (fun p => p.fst == i)).map Prod.snd

/-- Result of a clap accessor: either a value, or a process abort by panic. -/
inductive Clap (α : Type) where
  | ok (a : α)
  | crash (msg : String)
deriving DecidableEq

def clapUnknownId : String := "clap: argument id is not defined in this command"

def clapNotAFlag : String := "clap: argument is not declared with ArgAction SetTrue"

def clapStrDowncast : String := "clap: String value does not downcast to str"

/-- ArgMatches::get_flag. -/
def getFlag (m : ArgMatches) (i : String) : Clap Bool :=
  match findArg m.specs i with
  | none => .crash clapUnknownId
  | some a =>
    match a.action with
    | .set => .crash clapNotAFlag
    | .setTrue => .ok (m.flags.contains i)

/-- ArgMatches::get_one::<String>. -/
def getOneString (m : ArgMatches) (i : String) : Clap (Option String) :=
  match findArg m.specs i with
  | none => .crash clapUnknownId
  | some _ => .ok (argValue m i)

/-- ArgMatches::get_one::<&str> on an argument whose values are stored as String. -/
def getOneStrRef (m : ArgMatches) (i : String) : Clap (Option String) :=
  match findArg m.specs i with
  | none => .crash clapUnknownId
  | some _ =>
    match argValue m i with
    | some _ => .crash clapStrDowncast
    | none => .ok none

/-- Whether a command accepts the long flag --nm on its command line. -/
def acceptsLong (specs : List ArgSpec) (nm : String) : Bool :=
  specs.any (fun a => a.long == some nm)

/-- The `workspace update` subcommand's arguments (main.rs lines 250-259):
note the third argument's id is the literal string "--check", positional,
with the default Set action, and the fourth is "no-progress". -/
def updateArgs : List ArgSpec :=
  [⟨"repository", none, .set⟩,
   ⟨"to", none, .set⟩,
   ⟨"--check", none, .set⟩,
   ⟨"no-progress", none, .set⟩]

/-- The `repository log` subcommand's arguments (main.rs lines 125-131):
the third argument's id is "online", not "oneline". -/
def repositoryLogArgs : List ArgSpec :=
  [⟨"from", none, .set⟩,
   ⟨"to", none, .set⟩,
   ⟨"online", none, .set⟩]

/-- The `repository register_version` subcommand's arguments (main.rs 143-154). -/
def registerVersionArgs : List ArgSpec :=
  [⟨"version", none, .set⟩,
   ⟨"description", none, .set⟩,
   ⟨"description_file", none, .set⟩]

/-! ## Metadata model pieces the CLI touches -/

/-- Modelled from the spec: CleanName is a string matching [A-Za-z0-9_.-]+
(the CleanName type lives in libspeedupdate's metadata module, outside the
staged sources; section 3 of the specification fixes the character set). -/
def isCleanChar (c : Char) : Bool :=
  c.isUpper || c.isLower || c.isDigit || c == '_' || c == '.' || c == '-'

def isCleanName (s : String) : Bool :=
  !s.toList.isEmpty && s.toList.all isCleanChar

structure Version where
  revision : String
  description : String
deriving DecidableEq

/-! ## Command outcomes -/

/-- What a CLI handler run comes to: a process abort by a panic, an explicit
std::process::exit after the logged error lines, or a normal return (the
process then finishes with exit code 0) with the lines printed to stdout. -/
inductive CmdOutcome where
  | crash (msg : String)
  | exited (code : Nat) (reported : List String)
  | finished (printed : List String)
deriving DecidableEq

/-! ## workspace update (src/cli/src/workspace.rs, do_update, lines 121-227) -/

structure Histogram where
  downloaded_bytes : Nat
  applied_input_bytes : Nat
  applied_output_bytes : Nat
  checked_bytes : Nat
deriving DecidableEq

structure UpdateState where
  target_revision : String
  download_bytes : Nat
  apply_input_bytes : Nat
  apply_output_bytes : Nat
  histogram : Histogram
deriving DecidableEq

/-- One item of the update stream the workspace yields to the CLI. -/
inductive UpdateEvent where
  | state (s : UpdateState)
  | failure (e : String)
deriving DecidableEq

/-- try_for_each over the rest of the stream: stops at the first failure. -/
def consumeUpdateEvents : List UpdateEvent → Except String Unit
  | [] => .ok ()
  | .failure e :: _ => .error e
  | .state _ :: es => consumeUpdateEvents es

/-- do_update after the goal version is settled: reads the check flag
(get_flag "check"), pulls the first stream item, and either prints
"UP to DATE" on an empty stream, or runs the progress loop (the crash on
get_flag "no_progress" loses the already printed target line; that path is
dead anyway, the "check" access crashes first). -/
def doUpdateAfterGoal (m : ArgMatches) (_goal : Option String)
    (stream : List UpdateEvent) : CmdOutcome :=
  match getFlag m "check" with
  | .crash msg => .crash msg
  | .ok _check =>
    match stream with
    | [] => .finished ["UP to DATE"]
    | .failure e :: _ => .exited 1 ["update failed: " ++ e]
    | .state s :: rest =>
      match getFlag m "no_progress" with
      | .crash msg => .crash msg
      | .ok _ =>
        match consumeUpdateEvents rest with
        | .error e => .exited 1 ["update failed: " ++ e]
        | .ok _ =>
          .finished ["Target revision: " ++ s.target_revision, "UP to DATE"]

/-- workspace.rs do_update: goal from get_one::<&str>("to") (a String-stored
argument, so a present value panics on the downcast), CleanName validation,
then the update stream. `goal` dead code aside, every path first crosses
get_flag "check". -/
def do_update (m : ArgMatches) (stream : List UpdateEvent) : CmdOutcome :=
  match getOneStrRef m "to" with
  | .crash msg => .crash msg
  | .ok (some t) =>
    if isCleanName t then doUpdateAfterGoal m (some t) stream
    else .exited 1 ["invalid target version: " ++ t]
  | .ok none => doUpdateAfterGoal m none stream

/-! ## repository log (src/cli/src/repository.rs, do_log, lines 135-172) -/

/-- The repository answers the CLI consumes: current_version() and versions(). -/
structure RepoModel where
  current : Except String String
  versions : Except String (List Version)

/-- Rust str::lines().next().unwrap_or(""). -/
def firstLine (s : String) : String :=
  (s.splitOn "\n").headD ""

/-- The body printed for one version (console styling dropped). -/
def versionLines (oneline : Bool) (v : Version) : List String :=
  if oneline then [v.revision ++ ": " ++ firstLine v.description]
  else
    v.revision ::
      (if v.description.isEmpty then [] else ["", v.description, ""])

/-- The printing loop of do_log: print each version in order, stop right
after the one whose revision equals toRev. -/
def logPrintLoop (oneline : Bool) (toRev : String) : List Version → List String
  | [] => []
  | v :: vs =>
    versionLines oneline v ++
      (if v.revision == toRev then [] else logPrintLoop oneline toRev vs)

/-- repository.rs do_log: from and to via get_one::<String>, to defaulting
to the repository current version (try_: exit 1 on error), versions loaded
(try_), skip count from the position of `from` (error + exit 1 when absent
from the list), then get_flag "oneline" before the printing loop. -/
def repository_do_log (m : ArgMatches) (repo : RepoModel) : CmdOutcome :=
  match getOneString m "from" with
  | .crash msg => .crash msg
  | .ok fromArg =>
    match getOneString m "to" with
    | .crash msg => .crash msg
    | .ok toArg =>
      match (match toArg with
             | some t => Except.ok t
             | none => repo.current) with
      | .error e => .exited 1 ["unable to load repository current version: " ++ e]
      | .ok toRev =>
        match repo.versions with
        | .error e => .exited 1 ["unable to load repository versions: " ++ e]
        | .ok versions =>
          match (match fromArg with
                 | some f =>
                   match versions.findIdx? (fun (v : Version) => v.revision == f) with
                   | some i => Except.ok i
                   | none => Except.error f
                 | none => Except.ok 0) with
          | .error f => .exited 1 ["unable to find starting version: " ++ f]
          | .ok skipN =>
            match getFlag m "oneline" with
            | .crash msg => .crash msg
            | .ok oneline =>
              .finished (logPrintLoop oneline toRev (versions.drop skipN))

/-! ## repository register_version (src/cli/src/repository.rs, lines 74-103) -/

/-- A run of do_register_version: the Version (revision, description) that
was handed to Repository::register_version, when the call was reached, and
the process outcome. -/
structure RegVerRun where
  attempted : Option Version
  outcome : CmdOutcome
deriving DecidableEq

/-- The tail of do_register_version: build the Version value and register it
(try_: a repository error exits 1, after the call). -/
def registerWith (rev desc : String) (reg : Version → Except String Unit) :
    RegVerRun :=
  match reg ⟨rev, desc⟩ with
  | .ok _ => ⟨some ⟨rev, desc⟩, .finished []⟩
  | .error e => ⟨some ⟨rev, desc⟩, .exited 1 ["unable to register version: " ++ e]⟩

/-- repository.rs do_register_version: version argument (required, CleanName
checked), then the (description, description_file) match: both given is the
mutual-exclusion error and exit 1 before any registration; neither given
registers with the empty description; a file is read (with "-" reading
stdin) when only description_file is given. -/
def do_register_version (m : ArgMatches) (stdin : String)
    (readFile : String → Except String String)
    (reg : Version → Except String Unit) : RegVerRun :=
  match getOneString m "version" with
  | .crash msg => ⟨none, .crash msg⟩
  | .ok none => ⟨none, .exited 1 ["no version provided"]⟩
  | .ok (some vs) =>
    if isCleanName vs then
      match getOneString m "description" with
      | .crash msg => ⟨none, .crash msg⟩
      | .ok descArg =>
        match getOneString m "description_file" with
        | .crash msg => ⟨none, .crash msg⟩
        | .ok descFileArg =>
          match descArg, descFileArg with
          | none, none => registerWith vs "" reg
          | none, some df =>
            match (if df == "-" then Except.ok stdin else readFile df) with
            | .ok text => registerWith vs text reg
            | .error e => ⟨none, .exited 1 ["unable to read description file: " ++ e]⟩
          | some d, none => registerWith vs d reg
          | some _, some _ =>
            ⟨none, .exited 1 ["--desc and --descfile are mutually exclusive"]⟩
    else ⟨none, .exited 1 ["unable to convert version to clean name"]⟩

/-! ## build_package --num-threads (src/cli/src/repository.rs, lines 193-198) -/

/-- Result of a Rust library call made by the CLI: a value, a recoverable
error (a Result::Err the CLI can match on), or a process abort by panic. -/
inductive RustCall (α : Type) where
  | ok (a : α)
  | err (e : String)
  | crash (msg : String)
deriving DecidableEq

def radixPanicMsg : String := "from_str_radix: radix must lie in the range 2 to 36"

/-- Rust char::to_digit(radix): the digit value of c when it is below radix. -/
def charDigit (radix : Nat) (c : Char) : Option Nat :=
  let raw : Option Nat :=
    if c.isDigit then some (c.toNat - 48)
    else if c.isLower then some (c.toNat - 97 + 10)
    else if c.isUpper then some (c.toNat - 65 + 10)
    else none
  match raw with
  | some d => if d < radix then some d else none
  | none => none

def parseDigits (radix : Nat) : List Char → Nat → Option Nat
  | [], acc => some acc
  | c :: cs, acc =>
    match charDigit radix c with
    | some d => parseDigits radix cs (acc * radix + d)
    | none => none

/-- Rust usize::from_str_radix: panics unless 2 <= radix <= 36, otherwise
parses the digits in that radix (empty or non-digit input is Err; usize
overflow is not modelled, no claim exercises it). -/
def from_str_radix (s : String) (radix : Nat) : RustCall Nat :=
  if radix < 2 || 36 < radix then .crash radixPanicMsg
  else
    match s.toList with
    | [] => .err "cannot parse integer from empty string"
    | cs =>
      match parseDigits radix cs 0 with
      | some n => .ok n
      | none => .err "invalid digit found in string"

/-- The package builder as the CLI drives it: only the thread count matters
to the claims (PackageBuilder::set_num_threads records it). -/
structure BuilderModel where
  num_threads : Option Nat
deriving DecidableEq

inductive StepResult (α : Type) where
  | ok (a : α)
  | exited (code : Nat) (reported : List String)
  | crash (msg : String)
deriving DecidableEq

/-- repository.rs do_build_package, lines 194-198: when --num-threads was
given, its value is parsed with usize::from_str_radix(s, 1) (try_ turns an
Err into a logged error and exit 1) and handed to set_num_threads. -/
def numThreadsStep (arg : Option String) (b : BuilderModel) :
    StepResult BuilderModel :=
  match arg with
  | none => .ok b
  | some s =>
    match from_str_radix s 1 with
    | .crash msg => .crash msg
    | .err e => .exited 1 ["unable to convert --num-threads to integer: " ++ e]
    | .ok n => .ok ⟨some n⟩

/-! ## Error combinators and workspace status (C7) -/

/-- Outcome of the try_ / some_ helpers of src/cli/src/repository.rs,
lines 20-38: the unwrapped value, or a logged error and process::exit(1). -/
inductive TryResult (α : Type) where
  | ok (a : α)
  | exited (code : Nat) (reported : List String)
deriving DecidableEq

/-- repository.rs try_: Ok passes the value through, Err logs
"unable to <ctx>: <err>" and exits 1. -/
def try_run {α : Type} (res : Except String α) (ctx : String) : TryResult α :=
  match res with
  | .ok v => .ok v
  | .error e => .exited 1 ["unable to " ++ ctx ++ ": " ++ e]

/-- repository.rs some_: Some passes the value through, None logs ctx and
exits 1. -/
def some_run {α : Type} (res : Option α) (ctx : String) : TryResult α :=
  match res with
  | some v => .ok v
  | none => .exited 1 [ctx]

/-- The persisted workspace state (metadata v1::State) as the CLI matches it. -/
inductive WsState where
  | new
  | stable (version : String)
  | corrupted (version : String) (failures : List String)
  | updating (fromRev : Option String) (toRev : String) (failures : List String)
deriving DecidableEq

/-- A run of workspace.rs do_status: its exit code, the lines the error!
logger reported, and the lines printed to stdout (styling dropped). -/
structure StatusRun where
  exitCode : Nat
  reported : List String
  printed : List String
deriving DecidableEq

def latestSuffix (cv : Option String) : String :=
  match cv with
  | some v => " (latest = " ++ v ++ ")"
  | none => ""

def failureLines (intro : String) (failures : List String) : List String :=
  if failures.isEmpty then []
  else (toString failures.length ++ intro) :: failures.map (fun f => " - " ++ f)

/-- workspace.rs do_status, lines 48-119: when a repository argument is
given, try_current_version fetches the remote current version; a fetch
error is logged ("unable to load repository current version: ...") and the
function carries on with None.  The status is then printed from the
workspace state and the function returns normally: the process exits 0
whether or not the fetch failed. -/
def ws_do_status (repoCurrent : Option (Except String String)) (st : WsState) :
    StatusRun :=
  let cv : Option String :=
    match repoCurrent with
    | none => none
    | some (.ok v) => some v
    | some (.error _) => none
  let errs : List String :=
    match repoCurrent with
    | some (.error e) => ["unable to load repository current version: " ++ e]
    | _ => []
  let printed : List String :=
    match st with
    | .new => ["status: NEW" ++ latestSuffix cv]
    | .stable v =>
      let remote : String :=
        match cv with
        | some c => if c == v then "UP to DATE" else "OUTDATED (latest = " ++ c ++ ")"
        | none => ""
      ["status: " ++ v ++ remote]
    | .corrupted v failures =>
      ("status: CORRUPTED " ++ v ++ latestSuffix cv) ::
        failureLines " pending repair files:" failures
    | .updating f t failures =>
      ("status: UPDATING " ++ (match f with | some r => r | none => "⊘") ++
          " → " ++ t ++ latestSuffix cv) ::
        failureLines " pending recovery files:" failures
  ⟨0, errs, printed⟩

/-! ## Brotli decoder finish (src/lib/src/codecs/brotli.rs, lines 8-23) -/

/-- Modelled from the spec: the state of the external brotli crate's
DecompressorWriter over an inner writer W (the crate is not among the
staged sources).  What the claims need of it is whether a complete brotli
frame has been consumed, and the wrapped inner writer. -/
structure DecompressorWriter (W : Type) where
  inner : W
  completeFrame : Bool

/-- An io::Error as the wrapper builds it: the ErrorKind and the message. -/
structure IoError where
  kind : String
  msg : String
deriving DecidableEq

/-- Modelled from the spec (section 4.A: "finish on a decoder that has not
consumed a complete frame fails", and the design note that decoders surface
truncation): the crate's DecompressorWriter::finish returns the inner
writer exactly when a complete frame was consumed. -/
def DecompressorWriter.crateFinish {W : Type} (d : DecompressorWriter W) :
    Except Unit W :=
  if d.completeFrame then .ok d.inner else .error ()

/-- Modelled from the spec: flush forwards the bytes decoded so far and
succeeds (truncation is surfaced by finish, not flush). -/
def DecompressorWriter.crateFlush {W : Type} (d : DecompressorWriter W) :
    Except IoError (DecompressorWriter W) :=
  .ok d

/-- src/lib/src/codecs/brotli.rs, Coder::finish for DecompressorWriter:
flush, then the crate finish, any failure of which is mapped to the codec
io::Error "brotli decoder failed to finalize stream" of ErrorKind::Other. -/
def DecompressorWriter.coderFinish {W : Type} (d : DecompressorWriter W) :
    Except IoError W :=
  match d.crateFlush with
  | .error e => .error e
  | .ok d2 =>
    match d2.crateFinish with
    | .ok w => .ok w
    | .error _ => .error ⟨"Other", "brotli decoder failed to finalize stream"⟩

/-! ## Build progress (src/lib/src/repository/progress.rs) -/

inductive BuildStage where
  | buildingTaskList
  | buildingOperations
  | buildingPackage
deriving DecidableEq

/-- progress.rs BuildWorkerProgress: exactly a task name, a processed-bytes
counter and a bytes-to-process counter (Arc<str> and u64 modelled as
String and Nat). -/
structure BuildWorkerProgress where
  task_name : String
  processed_bytes : Nat
  process_bytes : Nat
deriving DecidableEq

/-- progress.rs BuildProgress (Box<[BuildWorkerProgress]> modelled as a
list; its doc comment: per worker progression, not empty and len is
stable). -/
structure BuildProgress where
  workers : List BuildWorkerProgress
  stage : BuildStage
  processed_bytes : Nat
  process_bytes : Nat
deriving DecidableEq

/-- Modelled from the spec (section 4.E stage 2 and section 9: the build
exposes a stable-length workers array of length num_threads with per-worker
counters): the builder creates one progress slot per worker thread. -/
def initialBuildProgress (num_threads : Nat) : BuildProgress :=
  ⟨List.replicate num_threads ⟨"", 0, 0⟩, .buildingTaskList, 0, 0⟩

/-- Modelled from the spec: what a build mutates between two published
snapshots: one worker's slot (task name and counters), the stage, or the
aggregate counters.  No event resizes the workers array. -/
inductive BuildEvent where
  | workerUpdate (i : Nat) (w : BuildWorkerProgress)
  | stageChange (s : BuildStage)
  | totals (processed : Nat) (process : Nat)
deriving DecidableEq

def applyEvent (p : BuildProgress) (e : BuildEvent) : BuildProgress :=
  match e with
  | .workerUpdate i w => ⟨p.workers.set i w, p.stage, p.processed_bytes, p.process_bytes⟩
  | .stageChange s => ⟨p.workers, s, p.processed_bytes, p.process_bytes⟩
  | .totals a b => ⟨p.workers, p.stage, a, b⟩

/-- Modelled from the spec (section 9: the executor publishes, consumers
sample): the snapshots a consumer of the shared progress can observe along
a build, the state after each event beginning with the initial one. -/
def publishedSnapshots (p : BuildProgress) : List BuildEvent → List BuildProgress
  | [] => [p]
  | e :: es => p :: publishedSnapshots (applyEvent p e) es

/-! ## gRPC handlers (src/server/src/rpc.rs) -/

/-- rpc.rs register_package, lines 306-317: the handler appends ".metadata"
to the package name of the request and delegates to
Repository::register_package; an Err becomes Status::internal.  The
repository is the capability the handler consumes, so the handler is a
function of it. -/
def rpc_register_package (repoRegister : String → Except String Unit)
    (name : String) : Except String Unit :=
  match repoRegister (name ++ ".metadata") with
  | .ok _ => .ok ()
  | .error e => .error e

/-- rpc.rs unregister_package, lines 319-333: same shape, delegating to
Repository::unregister_package on the ".metadata"-suffixed name. -/
def rpc_unregister_package (repoUnregister : String → Except String Unit)
    (name : String) : Except String Unit :=
  match repoUnregister (name ++ ".metadata") with
  | .ok _ => .ok ()
  | .error e => .error e

/-- rpc.rs is_init, lines 84-94: the handler asks the filesystem whether
path ++ "/packages" exists and answers Ok(Empty) or the internal status
"Repo not initilalized" (sic).  The filesystem is the existence predicate
the handler consumes. -/
def rpc_is_init (pathExists : String → Bool) (path : String) :
    Except String Unit :=
  if pathExists (path ++ "/packages") then .ok ()
  else .error "Repo not initilalized"

/-! ## Helper lemmas -/

theorem workers_length_applyEvent (p : BuildProgress) (e : BuildEvent) :
    (applyEvent p e).workers.length = p.workers.length := by
  cases e <;> simp [applyEvent]

theorem workers_length_snapshots (events : List BuildEvent) (p q : BuildProgress)
    (h : q ∈ publishedSnapshots p events) :
    q.workers.length = p.workers.length := by
  induction events generalizing p with
  | nil =>
    simp only [publishedSnapshots, List.mem_singleton] at h
    rw [h]
  | cons e es ih =>
    simp only [publishedSnapshots, List.mem_cons] at h
    rcases h with h | h
    · rw [h]
    · exact (ih (applyEvent p e) h).trans (workers_length_applyEvent p e)

theorem registerWith_attempted (rev desc : String)
    (reg : Version → Except String Unit) :
    (registerWith rev desc reg).attempted = some ⟨rev, desc⟩ := by
  unfold registerWith
  cases reg ⟨rev, desc⟩ <;> rfl

/-! ## Claim theorems -/

/-- Claim C1 (code bug): the claim says an invocation of `workspace update`
whose update stream yields no state prints "UP to DATE" and returns
successfully.  On the code, every such invocation aborts first: do_update
reads the check flag through get_flag "check", and the update subcommand
declares that argument under the id "--check" (positional, default Set
action), so the access panics before the stream is ever pulled, and the
"UP to DATE" branch is unreachable.  Evaluated here on an invocation with a
repository URL and no target revision, against the empty stream. -/
theorem c1_update_empty_stream_panics_before_up_to_date :
    do_update ⟨updateArgs, [("repository", "file:///repo")], []⟩ [] =
      CmdOutcome.crash clapUnknownId
    ∧ ∀ printed, do_update ⟨updateArgs, [("repository", "file:///repo")], []⟩ [] ≠
        CmdOutcome.finished printed := by
  refine ⟨rfl, ?_⟩
  intro printed h
  rw [show do_update ⟨updateArgs, [("repository", "file:///repo")], []⟩ [] =
      CmdOutcome.crash clapUnknownId from rfl] at h
  exact CmdOutcome.noConfusion h

/-- Claim C2 (code bug): the claim says passing --check sets
UpdateOptions.check to true and omitting it sets false.  On the code the
update subcommand declares no argument with the long name "check" (the arg
id is the literal "--check" and it is positional), so the command line
token --check is rejected by the parser; and when the flag is omitted the
handler's get_flag "check" access panics because no argument with id
"check" exists.  UpdateOptions.check is never assigned either way. -/
theorem c2_check_flag_inaccessible :
    acceptsLong updateArgs "check" = false
    ∧ ∀ (vals : List (String × String)) (fl : List String),
        getFlag ⟨updateArgs, vals, fl⟩ "check" = Clap.crash clapUnknownId :=
  ⟨rfl, fun _ _ => rfl⟩

/-- Claim C3 (code bug): the claim says `repository log` prints the versions
oldest to newest, sliced by from/to.  On the code the handler panics at
get_flag "oneline" (the log subcommand declares the id "online") after
loading the versions and before printing anything, so no version is ever
printed; the error-and-exit path for a `from` revision absent from the
version list is reached before that panic and does exit with code 1.
Evaluated on a repository with versions 1.0 and 1.1 and current 1.1. -/
theorem c3_repository_log_panics_before_printing :
    repository_do_log ⟨repositoryLogArgs, [], []⟩
        ⟨Except.ok "1.1", Except.ok [⟨"1.0", "first"⟩, ⟨"1.1", "second"⟩]⟩ =
      CmdOutcome.crash clapUnknownId
    ∧ repository_do_log ⟨repositoryLogArgs, [("from", "9.9")], []⟩
        ⟨Except.ok "1.1", Except.ok [⟨"1.0", "first"⟩, ⟨"1.1", "second"⟩]⟩ =
      CmdOutcome.exited 1 ["unable to find starting version: 9.9"] :=
  ⟨rfl, rfl⟩

/-- Claim C4: for every inner writer, finish on a brotli decoder that has
not consumed a complete frame returns the codec error (the io::Error of
kind Other built by the Coder impl in src/lib/src/codecs/brotli.rs) and
not the inner writer. -/
theorem c4_brotli_decoder_incomplete_finish_errors {W : Type}
    (d : DecompressorWriter W) (h : d.completeFrame = false) :
    d.coderFinish =
      Except.error ⟨"Other", "brotli decoder failed to finalize stream"⟩ := by
  simp [DecompressorWriter.coderFinish, DecompressorWriter.crateFlush,
    DecompressorWriter.crateFinish, h]

/-- Witness for C4 at the inner writer 0 and an incomplete frame. -/
theorem c4_witness :
    (DecompressorWriter.mk (0 : Nat) false).completeFrame = false
    ∧ (DecompressorWriter.mk (0 : Nat) false).coderFinish =
        Except.error ⟨"Other", "brotli decoder failed to finalize stream"⟩ :=
  ⟨rfl, c4_brotli_decoder_incomplete_finish_errors ⟨0, false⟩ rfl⟩

/-- Claim C5: every build progress snapshot published during a build has a
non-empty workers array whose length equals num_threads (so the length is
the same across all snapshots of the build), and a worker entry carries
exactly a task name, a processed-bytes counter and a bytes-to-process
counter (the structure is determined by those three fields). -/
theorem c5_build_progress_workers_stable (n : Nat) (hn : 0 < n)
    (events : List BuildEvent) (q : BuildProgress)
    (hq : q ∈ publishedSnapshots (initialBuildProgress n) events) :
    (q.workers.length = n ∧ q.workers ≠ [])
    ∧ ∀ w : BuildWorkerProgress,
        w = ⟨w.task_name, w.processed_bytes, w.process_bytes⟩ := by
  have hlen : q.workers.length = n := by
    rw [workers_length_snapshots events _ q hq]
    simp [initialBuildProgress]
  refine ⟨⟨hlen, ?_⟩, ?_⟩
  · intro hnil
    rw [hnil] at hlen
    simp at hlen
    omega
  · intro w
    cases w
    rfl

/-- Witness for C5: one worker, no events, the initial snapshot. -/
theorem c5_witness :
    0 < 1
    ∧ initialBuildProgress 1 ∈ publishedSnapshots (initialBuildProgress 1) []
    ∧ (((initialBuildProgress 1).workers.length = 1
        ∧ (initialBuildProgress 1).workers ≠ [])
      ∧ ∀ w : BuildWorkerProgress,
          w = ⟨w.task_name, w.processed_bytes, w.process_bytes⟩) :=
  ⟨Nat.one_pos, by simp [publishedSnapshots],
    c5_build_progress_workers_stable 1 Nat.one_pos [] (initialBuildProgress 1)
      (by simp [publishedSnapshots])⟩

/-- Claim C6 (code bug): the claim says --num-threads N parses N as a
decimal integer and sets the builder's thread count.  The code parses with
usize::from_str_radix(s, 1); Rust panics on any radix outside 2..=36, so
every invocation that passes --num-threads aborts before set_num_threads
runs.  A decimal parse of the same input would have succeeded. -/
theorem c6_num_threads_radix_one_panics :
    numThreadsStep (some "4") ⟨none⟩ = StepResult.crash radixPanicMsg
    ∧ from_str_radix "4" 10 = RustCall.ok 4
    ∧ ∀ (s : String) (b : BuilderModel),
        numThreadsStep (some s) b = StepResult.crash radixPanicMsg :=
  ⟨rfl, rfl, fun _ _ => rfl⟩

/-- Counterexample to claim C7 as stated: `workspace status` with a
repository whose current version cannot be fetched surfaces the error (the
error! line is emitted) and the process still exits 0. -/
theorem c7_counterexample_status_error_exit_zero :
    (ws_do_status (some (Except.error "connection refused"))
        (WsState.stable "1.0")).reported =
      ["unable to load repository current version: connection refused"]
    ∧ (ws_do_status (some (Except.error "connection refused"))
        (WsState.stable "1.0")).exitCode = 0 :=
  ⟨rfl, rfl⟩

/-- Claim C7 amended: a successful operation exits 0; every error that
aborts the requested operation is reported and exits with the non-zero
code 1 (the try_ and some_ helpers); but workspace status reports a failed
fetch of the remote current version and still completes with exit code 0. -/
theorem c7_exit_codes_amended :
    (∀ (α : Type) (v : α) (ctx : String),
        try_run (Except.ok v) ctx = TryResult.ok v)
    ∧ (∀ (e ctx : String),
        try_run (Except.error e : Except String Nat) ctx =
          TryResult.exited 1 ["unable to " ++ ctx ++ ": " ++ e])
    ∧ (∀ (α : Type) (v : α) (ctx : String),
        some_run (some v) ctx = TryResult.ok v)
    ∧ (∀ (ctx : String),
        some_run (none : Option Nat) ctx = TryResult.exited 1 [ctx])
    ∧ (1 : Nat) ≠ 0
    ∧ (∀ (e : String) (st : WsState),
        (ws_do_status (some (Except.error e)) st).exitCode = 0
        ∧ (ws_do_status (some (Except.error e)) st).reported =
            ["unable to load repository current version: " ++ e]) :=
  ⟨fun _ _ _ => rfl, fun _ _ => rfl, fun _ _ _ => rfl, fun _ => rfl,
    Nat.one_ne_zero, fun _ _ => ⟨rfl, rfl⟩⟩

/-- Claim C8: register_version with both description options reports the
mutual exclusion and exits 1 without reaching Repository::register_version;
with neither option the version is registered with the empty description. -/
theorem c8_register_version_description_options
    (v d f stdin : String)
    (readFile : String → Except String String)
    (reg : Version → Except String Unit)
    (hv : isCleanName v = true) :
    do_register_version ⟨registerVersionArgs,
        [("version", v), ("description", d), ("description_file", f)], []⟩
        stdin readFile reg =
      ⟨none, CmdOutcome.exited 1 ["--desc and --descfile are mutually exclusive"]⟩
    ∧ (do_register_version ⟨registerVersionArgs, [("version", v)], []⟩
        stdin readFile reg).attempted = some ⟨v, ""⟩ := by
  constructor
  · simp [do_register_version, getOneString, findArg, argValue,
      registerVersionArgs, hv]
  · simp [do_register_version, getOneString, findArg, argValue,
      registerVersionArgs, hv, registerWith_attempted]

/-- Witness for C8 at version 1.0, descriptions a and b. -/
theorem c8_witness :
    isCleanName "1.0" = true
    ∧ (do_register_version ⟨registerVersionArgs,
          [("version", "1.0"), ("description", "a"), ("description_file", "b")], []⟩
          "" (fun _ => Except.error "nf") (fun _ => Except.ok ()) =
        ⟨none, CmdOutcome.exited 1 ["--desc and --descfile are mutually exclusive"]⟩
      ∧ (do_register_version ⟨registerVersionArgs, [("version", "1.0")], []⟩
          "" (fun _ => Except.error "nf") (fun _ => Except.ok ())).attempted =
        some ⟨"1.0", ""⟩) :=
  ⟨rfl, c8_register_version_description_options "1.0" "a" "b" ""
    (fun _ => Except.error "nf") (fun _ => Except.ok ()) rfl⟩

/-- Claim C9: the gRPC register_package and unregister_package handlers
delegate to the repository on the request's package name with ".metadata"
appended, and consult the repository at no other name (two repositories
that agree on the suffixed name get the same response); on a repository
holding exactly the suffixed metadata name the request succeeds, so the
remote interface takes the package data name. -/
theorem c9_rpc_package_names_metadata_suffix :
    (∀ (f g : String → Except String Unit) (name : String),
        f (name ++ ".metadata") = g (name ++ ".metadata") →
        rpc_register_package f name = rpc_register_package g name)
    ∧ (∀ (f g : String → Except String Unit) (name : String),
        f (name ++ ".metadata") = g (name ++ ".metadata") →
        rpc_unregister_package f name = rpc_unregister_package g name)
    ∧ rpc_register_package
        (fun s => if s == "complete_1.0.metadata" then Except.ok ()
                  else Except.error "No such file") "complete_1.0" =
      Except.ok ()
    ∧ rpc_unregister_package
        (fun s => if s == "patch_1.0_1.1.metadata" then Except.ok ()
                  else Except.error "package is not registered") "patch_1.0_1.1" =
      Except.ok () := by
  refine ⟨?_, ?_, rfl, rfl⟩
  · intro f g name h
    simp [rpc_register_package, h]
  · intro f g name h
    simp [rpc_unregister_package, h]

/-- Witness for C9: two repository capabilities agreeing at a.metadata. -/
theorem c9_witness :
    (fun s => if s == "a.metadata" then Except.ok () else Except.error "x")
        ("a" ++ ".metadata") = (fun _ => Except.ok ()) ("a" ++ ".metadata")
    ∧ rpc_register_package
        (fun s => if s == "a.metadata" then Except.ok () else Except.error "x") "a" =
      rpc_register_package (fun _ => Except.ok ()) "a" :=
  ⟨rfl, c9_rpc_package_names_metadata_suffix.1
    (fun s => if s == "a.metadata" then Except.ok () else Except.error "x")
    (fun _ => Except.ok ()) "a" rfl⟩

/-- Claim C10: the gRPC is_init handler reports the repository initialized
exactly when the file path ++ "/packages" exists, answers the error
response "Repo not initilalized" when it does not, and examines no other
file (two filesystems agreeing on that one path get the same response). -/
theorem c10_is_init_examines_only_packages :
    (∀ (fs : String → Bool) (path : String),
        rpc_is_init fs path = Except.ok () ↔ fs (path ++ "/packages") = true)
    ∧ (∀ (fs : String → Bool) (path : String),
        fs (path ++ "/packages") = false →
        rpc_is_init fs path = Except.error "Repo not initilalized")
    ∧ (∀ (fs fs2 : String → Bool) (path : String),
        fs (path ++ "/packages") = fs2 (path ++ "/packages") →
        rpc_is_init fs path = rpc_is_init fs2 path) := by
  refine ⟨?_, ?_, ?_⟩
  · intro fs path
    by_cases h : fs (path ++ "/packages") = true <;> simp [rpc_is_init, h]
  · intro fs path h
    simp [rpc_is_init, h]
  · intro fs fs2 path h
    unfold rpc_is_init
    rw [h]

/-- Witness for C10: a filesystem with every path and one with exactly
/repo/packages agree at /repo/packages, so is_init answers the same. -/
theorem c10_witness :
    (fun (_ : String) => true) ("/repo" ++ "/packages") =
      (fun s => s == "/repo/packages") ("/repo" ++ "/packages")
    ∧ rpc_is_init (fun _ => true) "/repo" =
        rpc_is_init (fun s => s == "/repo/packages") "/repo" :=
  ⟨rfl, c10_is_init_examines_only_packages.2.2
    (fun _ => true) (fun s => s == "/repo/packages") "/repo" rfl⟩

end Speedupdate
